import Mathlib

/-!
Verification of the WebRTC transfer core of this repository
(`src/core/src/webrtc/webrtc.rs` and the host-facing controllers in
`src/app/rust/src/api/webrtc.rs`) against its natural-language
specification.

The embedding is shallow: byte buffers are `List Nat` (each element a byte
value), data-channel frames are an inductive with a text/binary flag, and
the async loops of the source are rendered as structurally recursive pure
functions over the list of messages they would consume.  External
collaborators that are not code of this repository (the Brotli compressor,
`serde_json`, UUID generation) are parameters of the corresponding
definitions.
-/

namespace LocalSend

/-- `CHUNK_SIZE` from `webrtc.rs`: `16 * 1024`. -/
def CHUNK_SIZE : Nat := 16 * 1024

/-- The inner `while buffer.len() >= CHUNK_SIZE` loop of `process_in_chunks`:
repeatedly split off `CHUNK_SIZE`-byte chunks from the front of the buffer,
returning the emitted chunks and the remaining (short) buffer. -/
def splitFull (buffer : List Nat) : List (List Nat) × List Nat :=
  if h : CHUNK_SIZE ≤ buffer.length then
    let p := splitFull (buffer.drop CHUNK_SIZE)
    (buffer.take CHUNK_SIZE :: p.1, p.2)
  else
    ([], buffer)
termination_by buffer.length
decreasing_by simp only [List.length_drop]; simp [CHUNK_SIZE] at h ⊢; omega

/-- The outer `while let Some(data) = rx.recv().await` loop of
`process_in_chunks`: extend the buffer with each received input, then emit
all full chunks.  Returns emitted chunks and the final buffer. -/
def chunkerLoop (buffer : List Nat) : List (List Nat) → List (List Nat) × List Nat
  | [] => ([], buffer)
  | data :: rest =>
    let p := splitFull (buffer ++ data)
    let q := chunkerLoop p.2 rest
    (p.1 ++ q.1, q.2)

/-- `process_in_chunks` (webrtc.rs lines 616–644), with the sink's effects
abstracted away (all sink invocations succeed): the list of chunks handed to
the sink, in order, for a given list of inputs received on `rx`.  The final
non-empty remainder is emitted; an empty remainder is not. -/
def process_in_chunks (inputs : List (List Nat)) : List (List Nat) :=
  let p := chunkerLoop [] inputs
  if p.2.isEmpty then p.1 else p.1 ++ [p.2]

theorem splitFull_spec (buffer : List Nat) :
    (splitFull buffer).1.flatten ++ (splitFull buffer).2 = buffer ∧
    (∀ c ∈ (splitFull buffer).1, c.length = CHUNK_SIZE) ∧
    (splitFull buffer).2.length < CHUNK_SIZE := by
  have H : ∀ (n : Nat) (buffer : List Nat), buffer.length = n →
      (splitFull buffer).1.flatten ++ (splitFull buffer).2 = buffer ∧
      (∀ c ∈ (splitFull buffer).1, c.length = CHUNK_SIZE) ∧
      (splitFull buffer).2.length < CHUNK_SIZE := by
    intro n
    induction n using Nat.strong_induction_on with
    | _ n ih =>
      intro buffer hn
      rw [splitFull]
      by_cases h : CHUNK_SIZE ≤ buffer.length
      · simp only [h, dif_pos]
        have hdrop : (buffer.drop CHUNK_SIZE).length < n := by
          rw [List.length_drop]
          have : 0 < CHUNK_SIZE := by simp [CHUNK_SIZE]
          omega
        obtain ⟨h1, h2, h3⟩ := ih _ hdrop (buffer.drop CHUNK_SIZE) rfl
        refine ⟨?_, ?_, h3⟩
        · simp only [List.flatten_cons, List.append_assoc, h1]
          exact List.take_append_drop CHUNK_SIZE buffer
        · intro c hc
          rcases List.mem_cons.mp hc with hc | hc
          · subst hc; simp [List.length_take]; omega
          · exact h2 c hc
      · simp only [h, dif_neg, not_false_iff]
        exact ⟨rfl, by simp, by omega⟩
  exact H buffer.length buffer rfl

theorem chunkerLoop_spec (inputs : List (List Nat)) :
    ∀ buffer : List Nat, buffer.length < CHUNK_SIZE →
    (chunkerLoop buffer inputs).1.flatten ++ (chunkerLoop buffer inputs).2
        = buffer ++ inputs.flatten ∧
    (∀ c ∈ (chunkerLoop buffer inputs).1, c.length = CHUNK_SIZE) ∧
    (chunkerLoop buffer inputs).2.length < CHUNK_SIZE := by
  induction inputs with
  | nil => intro buffer hb; simpa [chunkerLoop] using hb
  | cons data rest ih =>
    intro buffer hb
    simp only [chunkerLoop, List.flatten_cons]
    obtain ⟨s1, s2, s3⟩ := splitFull_spec (buffer ++ data)
    obtain ⟨l1, l2, l3⟩ := ih (splitFull (buffer ++ data)).2 s3
    refine ⟨?_, ?_, l3⟩
    · calc ((splitFull (buffer ++ data)).1 ++
              (chunkerLoop (splitFull (buffer ++ data)).2 rest).1).flatten ++
            (chunkerLoop (splitFull (buffer ++ data)).2 rest).2
          = (splitFull (buffer ++ data)).1.flatten ++
              ((chunkerLoop (splitFull (buffer ++ data)).2 rest).1.flatten ++
               (chunkerLoop (splitFull (buffer ++ data)).2 rest).2) := by
            simp [List.flatten_append, List.append_assoc]
        _ = (splitFull (buffer ++ data)).1.flatten ++
              ((splitFull (buffer ++ data)).2 ++ rest.flatten) := by rw [l1]
        _ = buffer ++ (data ++ rest.flatten) := by
            rw [← List.append_assoc, s1, List.append_assoc]
    · intro c hc
      rcases List.mem_append.mp hc with hc | hc
      · exact s2 c hc
      · exact l2 c hc

/-- Length of a flatten whose members all have length `k`. -/
theorem flatten_length_of_all (l : List (List Nat)) (k : Nat)
    (h : ∀ c ∈ l, c.length = k) : l.flatten.length = l.length * k := by
  induction l with
  | nil => simp
  | cons a t ih =>
    simp only [List.flatten_cons, List.length_append, List.length_cons]
    rw [h a (by simp), ih (fun c hc => h c (List.mem_cons_of_mem a hc))]
    ring

/-- C1: For every input sequence of byte buffers whose concatenation has
length `N`, `process_in_chunks` invokes its sink exactly `⌈N/16384⌉` times;
every chunk except possibly the last has length exactly `16384`, every
emitted chunk (in particular the last) is non-empty, and the concatenation
of the emitted chunks equals the concatenation of the inputs. -/
theorem process_in_chunks_spec (inputs : List (List Nat)) :
    (process_in_chunks inputs).length
        = (inputs.flatten.length + CHUNK_SIZE - 1) / CHUNK_SIZE ∧
    (∀ c ∈ (process_in_chunks inputs).dropLast, c.length = CHUNK_SIZE) ∧
    (∀ c ∈ process_in_chunks inputs, c ≠ []) ∧
    (process_in_chunks inputs).flatten = inputs.flatten := by
  obtain ⟨h1, h2, h3⟩ := chunkerLoop_spec inputs [] (by simp [CHUNK_SIZE])
  simp only [List.nil_append] at h1
  set p := chunkerLoop [] inputs with hp
  have hflat : p.1.flatten.length = p.1.length * CHUNK_SIZE :=
    flatten_length_of_all p.1 CHUNK_SIZE h2
  have hN : p.1.length * CHUNK_SIZE + p.2.length = inputs.flatten.length := by
    have := congrArg List.length h1
    simpa [hflat] using this
  by_cases he : p.2.isEmpty
  · have he' : p.2 = [] := List.isEmpty_iff.mp he
    have hrem : p.2.length = 0 := by simp [he']
    refine ⟨?_, ?_, ?_, ?_⟩
    · simp only [process_in_chunks, ← hp, he', List.isEmpty_nil, if_true]
      have hcs : 0 < CHUNK_SIZE := by simp [CHUNK_SIZE]
      simp only [CHUNK_SIZE] at hN hrem ⊢
      omega
    · intro c hc
      simp only [process_in_chunks, ← hp, he', List.isEmpty_nil, if_true] at hc
      exact h2 c (List.dropLast_subset _ hc)
    · intro c hc
      simp only [process_in_chunks, ← hp, he', List.isEmpty_nil, if_true] at hc
      have := h2 c hc
      intro hce
      rw [hce] at this
      simp [CHUNK_SIZE] at this
    · simp only [process_in_chunks, ← hp, he', List.isEmpty_nil, if_true]
      simpa [he'] using h1
  · have he' : p.2 ≠ [] := fun hh => he (by simp [hh])
    have hrem : 0 < p.2.length := List.length_pos.mpr he'
    refine ⟨?_, ?_, ?_, ?_⟩
    · simp only [process_in_chunks, ← hp, if_neg he, List.length_append,
        List.length_cons, List.length_nil]
      simp only [CHUNK_SIZE] at hN hrem h3 ⊢
      omega
    · intro c hc
      simp only [process_in_chunks, ← hp, if_neg he] at hc
      rw [List.dropLast_concat] at hc
      exact h2 c hc
    · intro c hc
      simp only [process_in_chunks, ← hp, if_neg he] at hc
      rcases List.mem_append.mp hc with hc | hc
      · have := h2 c hc
        intro hce
        rw [hce] at this
        simp [CHUNK_SIZE] at this
      · rw [List.mem_singleton.mp hc]
        exact he'
    · simp only [process_in_chunks, ← hp, if_neg he, List.flatten_append,
        List.flatten_cons, List.flatten_nil, List.append_nil]
      exact h1

/-! ### SDP codec: base64url (no padding) over Brotli

`encode_sdp` / `decode_sdp` (webrtc.rs lines 591–610) compose the external
`brotli` crate with the `base64` crate's `URL_SAFE_NO_PAD` engine.  The
base64url layer is embedded concretely below; the Brotli compressor and
decompressor are external library code and appear as parameters
(`compress : List Nat → List Nat`, `decompress : List Nat → Option (List Nat)`,
where `none` models a decompression error). -/

/-- The base64url alphabet: value `n < 64` to its character. -/
def b64Char (n : Nat) : Char :=
  if n < 26 then Char.ofNat (65 + n)
  else if n < 52 then Char.ofNat (97 + (n - 26))
  else if n < 62 then Char.ofNat (48 + (n - 52))
  else if n = 62 then '-'
  else '_'

/-- Inverse character lookup of the base64url alphabet;
`none` for a character outside the alphabet. -/
def b64CharValue (c : Char) : Option Nat :=
  if 65 ≤ c.toNat ∧ c.toNat ≤ 90 then some (c.toNat - 65)
  else if 97 ≤ c.toNat ∧ c.toNat ≤ 122 then some (c.toNat - 97 + 26)
  else if 48 ≤ c.toNat ∧ c.toNat ≤ 57 then some (c.toNat - 48 + 52)
  else if c = '-' then some 62
  else if c = '_' then some 63
  else none

/-- Byte list to sextet-value list, grouping 3 bytes into 4 sextets with the
standard unpadded tail (1 trailing byte → 2 sextets, 2 → 3). -/
def b64EncodeBytes : List Nat → List Nat
  | [] => []
  | [a] => [a / 4, a % 4 * 16]
  | [a, b] => [a / 4, a % 4 * 16 + b / 16, b % 16 * 4]
  | a :: b :: c :: rest =>
      a / 4 :: (a % 4 * 16 + b / 16) :: (b % 16 * 4 + c / 64) :: c % 64 ::
        b64EncodeBytes rest

/-- Sextet-value list back to bytes; rejects length ≡ 1 (mod 4) and non-zero
trailing bits, as the `base64` crate's default config does. -/
def b64DecodeSextets : List Nat → Option (List Nat)
  | [] => some []
  | [_] => none
  | [s1, s2] => if s2 % 16 = 0 then some [s1 * 4 + s2 / 16] else none
  | [s1, s2, s3] =>
      if s3 % 4 = 0 then some [s1 * 4 + s2 / 16, s2 % 16 * 16 + s3 / 4] else none
  | s1 :: s2 :: s3 :: s4 :: rest =>
      match b64DecodeSextets rest with
      | some bs =>
          some ((s1 * 4 + s2 / 16) :: (s2 % 16 * 16 + s3 / 4) ::
            (s3 % 4 * 64 + s4) :: bs)
      | none => none

/-- Character-wise lookup; fails on the first character outside the alphabet. -/
def b64DecodeValues : List Char → Option (List Nat)
  | [] => some []
  | c :: rest =>
    match b64CharValue c with
    | none => none
    | some v =>
      match b64DecodeValues rest with
      | none => none
      | some vs => some (v :: vs)

/-- `URL_SAFE_NO_PAD.encode`. -/
def b64Encode (bs : List Nat) : List Char :=
  (b64EncodeBytes bs).map b64Char

/-- `URL_SAFE_NO_PAD.decode`; `none` models a `DecodeError`. -/
def b64Decode (cs : List Char) : Option (List Nat) :=
  match b64DecodeValues cs with
  | none => none
  | some sx => b64DecodeSextets sx

/-- UTF-8 continuation byte (0x80–0xBF). -/
def utf8Cont (b : Nat) : Bool := 128 ≤ b && b ≤ 191

/-- The RFC 3629 UTF-8 well-formedness check performed by Rust's
`String::from_utf8`. -/
def utf8Valid : List Nat → Bool
  | [] => true
  | b :: rest =>
    if b ≤ 127 then utf8Valid rest
    else if 194 ≤ b && b ≤ 223 then
      match rest with
      | c1 :: r => utf8Cont c1 && utf8Valid r
      | [] => false
    else if b = 224 then
      match rest with
      | c1 :: c2 :: r => (160 ≤ c1 && c1 ≤ 191) && utf8Cont c2 && utf8Valid r
      | _ => false
    else if (225 ≤ b && b ≤ 236) || b = 238 || b = 239 then
      match rest with
      | c1 :: c2 :: r => utf8Cont c1 && utf8Cont c2 && utf8Valid r
      | _ => false
    else if b = 237 then
      match rest with
      | c1 :: c2 :: r => (128 ≤ c1 && c1 ≤ 159) && utf8Cont c2 && utf8Valid r
      | _ => false
    else if b = 240 then
      match rest with
      | c1 :: c2 :: c3 :: r =>
          (144 ≤ c1 && c1 ≤ 191) && utf8Cont c2 && utf8Cont c3 && utf8Valid r
      | _ => false
    else if 241 ≤ b && b ≤ 243 then
      match rest with
      | c1 :: c2 :: c3 :: r =>
          utf8Cont c1 && utf8Cont c2 && utf8Cont c3 && utf8Valid r
      | _ => false
    else if b = 244 then
      match rest with
      | c1 :: c2 :: c3 :: r =>
          (128 ≤ c1 && c1 ≤ 143) && utf8Cont c2 && utf8Cont c3 && utf8Valid r
      | _ => false
    else false

/-- Result of `decode_sdp`: `ok` (the decoded SDP as UTF-8 bytes), `err`
(an `Err` return through `?`), or `panics` (the
`.expect("Decompression failed")` aborting the thread). -/
inductive SdpOutcome
  | ok (bytes : List Nat)
  | err
  | aborts
deriving DecidableEq

/-- `encode_sdp` (webrtc.rs lines 593–599): Brotli-compress, then
base64url-encode without padding.  The SDP string is represented by its
UTF-8 byte list. -/
def encode_sdp (compress : List Nat → List Nat) (s : List Nat) : List Char :=
  b64Encode (compress s)

/-- `decode_sdp` (webrtc.rs lines 601–610): base64url-decode (`?` on error),
Brotli-decompress (`.expect` — a failure panics), then `String::from_utf8`
(`?` on error). -/
def decode_sdp (decompress : List Nat → Option (List Nat)) (s : List Char) :
    SdpOutcome :=
  match b64Decode s with
  | none => .err
  | some decoded =>
    match decompress decoded with
    | none => .aborts
    | some decompressed =>
      if utf8Valid decompressed then .ok decompressed else .err

/-- Outcome of the `decode_sdp(&offer.sdp)?` step opening `accept_offer`
(webrtc.rs line 514). -/
inductive AcceptStart
  | fatal
  | aborted
  | proceeds (sdpBytes : List Nat)
deriving DecidableEq

/-- `accept_offer` up to its first fallible step: a codec `Err` propagates
out of `accept_offer` (session fails, no peer connection is established); a
decompression panic aborts. -/
def accept_offer_start (decompress : List Nat → Option (List Nat))
    (offerSdp : List Char) : AcceptStart :=
  match decode_sdp decompress offerSdp with
  | .err => .fatal
  | .aborts => .aborted
  | .ok d => .proceeds d

theorem b64CharValue_b64Char :
    ∀ n : Fin 64, b64CharValue (b64Char n.val) = some n.val ∧
      b64Char n.val ≠ '=' := by decide

theorem b64EncodeBytes_lt64 :
    ∀ bs : List Nat, (∀ b ∈ bs, b < 256) → ∀ s ∈ b64EncodeBytes bs, s < 64
  | [], _ => by simp [b64EncodeBytes]
  | [a], h => by
    have ha : a < 256 := h a (by simp)
    simp only [b64EncodeBytes, List.mem_cons, List.not_mem_nil, or_false]
    rintro s (rfl | rfl) <;> omega
  | [a, b], h => by
    have ha : a < 256 := h a (by simp)
    have hb : b < 256 := h b (by simp)
    simp only [b64EncodeBytes, List.mem_cons, List.not_mem_nil, or_false]
    rintro s (rfl | rfl | rfl) <;> omega
  | a :: b :: c :: rest, h => by
    have ha : a < 256 := h a (by simp)
    have hb : b < 256 := h b (by simp)
    have hc : c < 256 := h c (by simp)
    have ih := b64EncodeBytes_lt64 rest
      (fun x hx => h x (by simp [hx]))
    simp only [b64EncodeBytes, List.mem_cons]
    rintro s (rfl | rfl | rfl | rfl | hs)
    · omega
    · omega
    · omega
    · omega
    · exact ih s hs

theorem b64DecodeSextets_encode :
    ∀ bs : List Nat, (∀ b ∈ bs, b < 256) →
      b64DecodeSextets (b64EncodeBytes bs) = some bs
  | [], _ => by simp [b64EncodeBytes, b64DecodeSextets]
  | [a], h => by
    have ha : a < 256 := h a (by simp)
    simp only [b64EncodeBytes, b64DecodeSextets]
    have h2 : a % 4 * 16 % 16 = 0 := by omega
    rw [if_pos h2]
    simp only [Option.some.injEq, List.cons.injEq, and_true]
    omega
  | [a, b], h => by
    have ha : a < 256 := h a (by simp)
    have hb : b < 256 := h b (by simp)
    simp only [b64EncodeBytes, b64DecodeSextets]
    have h3 : b % 16 * 4 % 4 = 0 := by omega
    rw [if_pos h3]
    simp only [Option.some.injEq, List.cons.injEq, and_true]
    constructor <;> omega
  | a :: b :: c :: rest, h => by
    have ha : a < 256 := h a (by simp)
    have hb : b < 256 := h b (by simp)
    have hc : c < 256 := h c (by simp)
    have ih := b64DecodeSextets_encode rest (fun x hx => h x (by simp [hx]))
    simp only [b64EncodeBytes, b64DecodeSextets, ih]
    simp only [Option.some.injEq, List.cons.injEq, and_true]
    refine ⟨?_, ?_, ?_⟩ <;> omega

theorem b64DecodeValues_map (sx : List Nat) (h : ∀ s ∈ sx, s < 64) :
    b64DecodeValues (sx.map b64Char) = some sx := by
  induction sx with
  | nil => simp [b64DecodeValues]
  | cons s rest ih =>
    have hs : s < 64 := h s (by simp)
    have hv := (b64CharValue_b64Char ⟨s, hs⟩).1
    simp only [List.map_cons, b64DecodeValues, hv,
      ih (fun x hx => h x (by simp [hx]))]

/-- C2: for every SDP string `S` (as UTF-8 bytes), `decode_sdp (encode_sdp S) = S`,
and the output of `encode_sdp` contains only base64url-alphabet characters
and no `=` padding.  The Brotli pair is external; the hypotheses record its
contract at `s`: decompression inverts compression and compressed output
consists of bytes. -/
theorem sdp_round_trip (compress : List Nat → List Nat)
    (decompress : List Nat → Option (List Nat)) (s : List Nat)
    (hrt : decompress (compress s) = some s)
    (hb : ∀ b ∈ compress s, b < 256)
    (hs : utf8Valid s = true) :
    decode_sdp decompress (encode_sdp compress s) = SdpOutcome.ok s ∧
    ∀ c ∈ encode_sdp compress s, (b64CharValue c).isSome = true ∧ c ≠ '=' := by
  have hlt := b64EncodeBytes_lt64 (compress s) hb
  constructor
  · have hdec : b64Decode (encode_sdp compress s) = some (compress s) := by
      simp only [encode_sdp, b64Encode, b64Decode,
        b64DecodeValues_map _ hlt]
      exact b64DecodeSextets_encode (compress s) hb
    simp only [decode_sdp, hdec, hrt, hs, if_true]
  · intro c hcm
    simp only [encode_sdp, b64Encode, List.mem_map] at hcm
    obtain ⟨v, hv, rfl⟩ := hcm
    have hv64 : v < 64 := hlt v hv
    obtain ⟨h1, h2⟩ := b64CharValue_b64Char ⟨v, hv64⟩
    exact ⟨by simp [h1], h2⟩

/-- Witness for C2 at `S = "v=0"` (bytes `[118, 61, 48]`), with the Brotli
pair instantiated by the identity codec. -/
theorem sdp_round_trip_witness :
    decode_sdp some (encode_sdp id [118, 61, 48]) = SdpOutcome.ok [118, 61, 48] ∧
    ∀ c ∈ encode_sdp id [118, 61, 48], (b64CharValue c).isSome = true ∧ c ≠ '=' :=
  sdp_round_trip id some [118, 61, 48] rfl (by decide) (by decide)

/-- C8 counterexample: on base64url-valid input `"AA"` (decoding to the
single byte `0x00`, which is not a valid Brotli stream) with a decompressor
that fails there, `decode_sdp` panics via `.expect("Decompression failed")`
instead of returning an error. -/
theorem decode_sdp_decompression_aborts :
    decode_sdp (fun _ => none) ['A', 'A'] = SdpOutcome.aborts ∧
    SdpOutcome.aborts ≠ SdpOutcome.err := by decide

/-- C8 amended: `decode_sdp` returns an error (`Err`, not an abort) on
invalid base64url input and on non-UTF-8 decompressed bytes, and
`accept_offer` propagates such an error as session-fatal before the peer
connection is established; but when Brotli decompression itself fails,
`decode_sdp` panics (aborts) rather than returning an error. -/
theorem decode_sdp_totality (decompress : List Nat → Option (List Nat))
    (s : List Char) :
    (b64Decode s = none → decode_sdp decompress s = SdpOutcome.err) ∧
    (∀ d, b64Decode s = some d → decompress d = none →
      decode_sdp decompress s = SdpOutcome.aborts) ∧
    (∀ d d', b64Decode s = some d → decompress d = some d' →
      utf8Valid d' = false → decode_sdp decompress s = SdpOutcome.err) ∧
    (decode_sdp decompress s = SdpOutcome.err →
      accept_offer_start decompress s = AcceptStart.fatal) := by
  refine ⟨?_, ?_, ?_, ?_⟩
  · intro h; simp [decode_sdp, h]
  · intro d hd hdc; simp [decode_sdp, hd, hdc]
  · intro d d' hd hdc hu; simp [decode_sdp, hd, hdc, hu]
  · intro h; simp [accept_offer_start, h]

/-- Witness for C8's amended theorem: `"!"` is rejected by the base64url
decoder and `accept_offer` fails the session there; `"AA"` decompressing to
the non-UTF-8 byte `0xFF` is rejected by the UTF-8 check. -/
theorem decode_sdp_totality_witness :
    decode_sdp some ['!'] = SdpOutcome.err ∧
    accept_offer_start some ['!'] = AcceptStart.fatal ∧
    decode_sdp (fun _ => some [255]) ['A', 'A'] = SdpOutcome.err := by
  refine ⟨?_, ?_, ?_⟩
  · exact (decode_sdp_totality some ['!']).1 (by decide)
  · exact (decode_sdp_totality some ['!']).2.2.2
      ((decode_sdp_totality some ['!']).1 (by decide))
  · exact (decode_sdp_totality (fun _ => some [255]) ['A', 'A']).2.2.1
      [0] [255] (by decide) rfl (by decide)

/-! ### Data model and wire frames -/

/-- `FileDto` (core `model/file.rs`, fields as used by `main.rs` and the
spec's FileDescriptor): stable id, display name, declared size, file type,
optional SHA-256, optional preview blob, optional metadata map. -/
structure FileDto where
  id : String
  file_name : String
  size : Nat
  file_type : String
  sha256 : Option String
  preview : Option (List Nat)
  metadata : Option (List (String × String))
deriving DecidableEq

/-- A data-channel message/frame: the protocol distinguishes phases only by
the string-vs-binary flag (`DataChannelMessage.is_string`) and the payload. -/
inductive Frame
  | text (data : List Nat)
  | binary (data : List Nat)
deriving DecidableEq

/-- Is this frame a text frame? -/
def Frame.isTextFrame : Frame → Bool
  | .text _ => true
  | .binary _ => false

/-- Is this frame the empty-string text terminator? -/
def Frame.isEmptyText : Frame → Bool
  | .text [] => true
  | _ => false

/-! ### Sender side: the `on_message` handler (webrtc.rs lines 242–287)

State of the two `Arc<Mutex<…>>` cells captured by the sender's
`on_message` closure: `initial_msg_buffer : Mutex<Option<BytesMut>>`
(starts `Some(empty)`) and `file_tokens_tx : Mutex<Option<Sender>>`
(`slot = true` while the one-shot sender is still in its cell).
`resolved` records the value sent through the one-shot, if any.
`serde_json::from_str::<RTCInitialResponse>` is external and appears as the
parameter `parseReply` (`none` = parse error). -/

structure SenderHandlerState where
  buffer : Option (List Nat)
  slot : Bool
  resolved : Option (List (String × String))
deriving DecidableEq

/-- The cells as installed at session start. -/
def senderHandlerInit : SenderHandlerState := ⟨some [], true, none⟩

/-- One invocation of the sender's `on_message` handler. -/
def senderOnMessage (parseReply : List Nat → Option (List (String × String)))
    (st : SenderHandlerState) (msg : Frame) : SenderHandlerState :=
  match msg with
  | .text _ =>
    match st.buffer with
    | some buf =>
      -- `buffer.split().freeze()` empties the buffer in place
      if utf8Valid buf then
        match parseReply buf with
        | some files =>
          if st.slot then ⟨none, false, some files⟩
          else { st with buffer := some [] }   -- `take` failed: early return
        | none => { st with buffer := none }   -- parse error: only `*lock = None`
      else
        if st.slot then ⟨none, false, some []⟩ -- non-UTF-8: empty map
        else { st with buffer := some [] }     -- `take` failed: early return
    | none => st
  | .binary data =>
    match st.buffer with
    | some buf => { st with buffer := some (buf ++ data) }
    | none => st

/-- The handler folded over a message sequence, from the initial cells. -/
def senderHandlerRun (parseReply : List Nat → Option (List (String × String)))
    (msgs : List Frame) : SenderHandlerState :=
  msgs.foldl (senderOnMessage parseReply) senderHandlerInit

/-- A sequence of binary frames carrying the given byte buffers. -/
def binaries (ds : List (List Nat)) : List Frame := ds.map Frame.binary

theorem senderHandler_binaries
    (p : List Nat → Option (List (String × String))) (ds : List (List Nat)) :
    ∀ (b : List Nat) (s : Bool) (r : Option (List (String × String))),
      (binaries ds).foldl (senderOnMessage p) ⟨some b, s, r⟩
        = ⟨some (b ++ ds.flatten), s, r⟩ := by
  induction ds with
  | nil => intro b s r; simp [binaries]
  | cons d rest ih =>
    intro b s r
    simp only [binaries, List.map_cons, List.foldl_cons]
    have h1 : senderOnMessage p ⟨some b, s, r⟩ (Frame.binary d)
        = ⟨some (b ++ d), s, r⟩ := rfl
    rw [h1]
    have h2 := ih (b ++ d) s r
    simp only [binaries] at h2
    rw [h2]
    simp [List.append_assoc]

theorem senderHandler_buffer_none_fixed
    (p : List Nat → Option (List (String × String)))
    (st : SenderHandlerState) (hb : st.buffer = none) :
    ∀ msgs : List Frame, msgs.foldl (senderOnMessage p) st = st := by
  intro msgs
  induction msgs with
  | nil => rfl
  | cons m rest ih =>
    have hstep : senderOnMessage p st m = st := by
      cases m <;> simp [senderOnMessage, hb]
    simp [List.foldl_cons, hstep, ih]

/-! ### Sender side: the `on_open` handler (webrtc.rs lines 106–239)

The sending coroutine, with all data-channel and host-channel sends
succeeding (the reliable-transport execution).  `serManifest` is the
`serde_json` encoding of the `RTCInitialMessage`; `serHeader id token` is
the encoding of `RTCSendFileHeaderMessage {id, token}`; both are external
serializers.  `tokensResult` is the value of `file_tokens_rx.await`:
`some m` when the one-shot resolved with map `m`, `none` when its sender was
dropped unresolved. -/

/-- One host file submission: `RTCFile { file_id, binary_rx }`, with the
byte buffers that arrive on `binary_rx`. -/
structure RTCFileModel where
  file_id : String
  chunks : List (List Nat)
deriving DecidableEq

/-- Statuses emitted on `status_tx`. -/
inductive RTCStatusM
  | sdpExchanged
  | connected
  | finished
  | error (msg : String)
deriving DecidableEq

/-- Observable outcome of the sender's `on_open` coroutine. -/
structure SenderOutcome where
  frames : List Frame
  statuses : List RTCStatusM
  errors : List (String × String)
  selectedPublished : Option (List String)
deriving DecidableEq

/-- The `while let Some(message) = sending_rx.recv().await` loop
(lines 173–227): frames written and per-file errors emitted. -/
def sendFileLoop (serHeader : String → String → List Nat)
    (tokens : List (String × String)) :
    List RTCFileModel → List Frame × List (String × String)
  | [] => ([], [])
  | sub :: rest =>
    match tokens.lookup sub.file_id with
    | none =>
      let p := sendFileLoop serHeader tokens rest
      (p.1, (sub.file_id, "Failed to get file token") :: p.2)
    | some tok =>
      let p := sendFileLoop serHeader tokens rest
      (Frame.text (serHeader sub.file_id tok) ::
        ((process_in_chunks sub.chunks).map Frame.binary ++ p.1), p.2)

/-- The sender's `on_open` coroutine end to end: manifest chunks, empty-text
terminator, the file loop (or the tokens-error path), trailing empty-text
terminator, statuses. -/
def senderOnOpen (serManifest : List Nat) (serHeader : String → String → List Nat)
    (tokensResult : Option (List (String × String)))
    (subs : List RTCFileModel) : SenderOutcome :=
  let manifestFrames :=
    (process_in_chunks [serManifest]).map Frame.binary ++ [Frame.text []]
  match tokensResult with
  | none =>
    { frames := manifestFrames ++ [Frame.text []]
      statuses := [.connected, .error "Failed to receive file tokens", .finished]
      errors := []
      selectedPublished := none }
  | some tokens =>
    let p := sendFileLoop serHeader tokens subs
    { frames := manifestFrames ++ p.1 ++ [Frame.text []]
      statuses := [.connected, .finished]
      errors := p.2
      selectedPublished := some (tokens.map Prod.fst) }

theorem sendFileLoop_no_tokens (serHeader : String → String → List Nat) :
    ∀ subs : List RTCFileModel,
      sendFileLoop serHeader [] subs
        = ([], subs.map (fun s => (s.file_id, "Failed to get file token"))) := by
  intro subs
  induction subs with
  | nil => rfl
  | cons sub rest ih => simp [sendFileLoop, List.lookup, ih]

/-- C3 counterexample: the accumulated binary prefix `[123]` (the one-byte
string `"{"`) is valid UTF-8 but is not valid SelectionReply JSON
(`serde_json::from_str::<RTCInitialResponse>` rejects it, modelled by a
parser returning `none` there).  When the first text frame arrives the
handler takes the `if let Ok(file_tokens)` branch's failure silently: the
file-tokens one-shot is NOT resolved — in particular not with an empty map
as the claim states. -/
theorem sender_handshake_json_invalid_unresolved :
    (senderHandlerRun (fun _ => none)
        [Frame.binary [123], Frame.text []]).resolved = none ∧
    ¬ (senderHandlerRun (fun _ => none)
        [Frame.binary [123], Frame.text []]).resolved = some [] := by decide

/-- C3 (amended): when the first inbound text frame arrives, if the
accumulated binary prefix is not valid UTF-8 the file-tokens one-shot is
resolved with an empty map, but if it is valid UTF-8 and not valid
SelectionReply JSON the one-shot is not resolved at all; in both cases the
sender emits no FileHeader for any file (with an empty map every token
lookup fails; with the one-shot dropped unresolved the sender takes the
tokens-error path before the file loop). -/
theorem sender_handshake_malformed
    (parseReply : List Nat → Option (List (String × String)))
    (ds : List (List Nat)) (t : List Nat) :
    (utf8Valid ds.flatten = false →
      (senderHandlerRun parseReply (binaries ds ++ [Frame.text t])).resolved
        = some []) ∧
    (utf8Valid ds.flatten = true → parseReply ds.flatten = none →
      (senderHandlerRun parseReply (binaries ds ++ [Frame.text t])).resolved
        = none) ∧
    (∀ serManifest serHeader subs,
      ∀ f ∈ (senderOnOpen serManifest serHeader (some []) subs).frames,
        f.isTextFrame = true → f = Frame.text []) ∧
    (∀ serManifest serHeader subs,
      ∀ f ∈ (senderOnOpen serManifest serHeader none subs).frames,
        f.isTextFrame = true → f = Frame.text []) := by
  have hrun : senderHandlerRun parseReply (binaries ds ++ [Frame.text t])
      = senderOnMessage parseReply ⟨some ds.flatten, true, none⟩ (Frame.text t) := by
    simp only [senderHandlerRun, List.foldl_append, senderHandlerInit]
    rw [senderHandler_binaries parseReply ds [] true none]
    simp
  refine ⟨?_, ?_, ?_, ?_⟩
  · intro hu
    rw [hrun]
    simp [senderOnMessage, hu]
  · intro hu hp
    rw [hrun]
    simp [senderOnMessage, hu, hp]
  · intro serManifest serHeader subs f hf ht
    simp only [senderOnOpen, sendFileLoop_no_tokens, List.append_nil] at hf
    rcases List.mem_append.mp hf with hf | hf
    · rcases List.mem_append.mp hf with hf | hf
      · obtain ⟨d, _, rfl⟩ := List.mem_map.mp hf
        simp [Frame.isTextFrame] at ht
      · rw [List.mem_singleton.mp hf]
    · rw [List.mem_singleton.mp hf]
  · intro serManifest serHeader subs f hf ht
    simp only [senderOnOpen] at hf
    rcases List.mem_append.mp hf with hf | hf
    · rcases List.mem_append.mp hf with hf | hf
      · obtain ⟨d, _, rfl⟩ := List.mem_map.mp hf
        simp [Frame.isTextFrame] at ht
      · rw [List.mem_singleton.mp hf]
    · rw [List.mem_singleton.mp hf]

/-- Witness for C3's amended theorem: a non-UTF-8 prefix `[255]` resolves
the one-shot with the empty map; the valid-UTF-8 non-JSON prefix `[123]`
leaves it unresolved. -/
theorem sender_handshake_malformed_witness :
    (senderHandlerRun (fun _ => none)
        (binaries [[255]] ++ [Frame.text []])).resolved = some [] ∧
    (senderHandlerRun (fun _ => none)
        (binaries [[123]] ++ [Frame.text []])).resolved = none :=
  ⟨(sender_handshake_malformed (fun _ => none) [[255]] []).1 (by decide),
   (sender_handshake_malformed (fun _ => none) [[123]] []).2.1 (by decide) rfl⟩

/-- C10 counterexample: an empty accumulated buffer is valid UTF-8 but not
valid SelectionReply JSON, so after the first text frame the buffer is
`None` but the file-tokens one-shot has NOT been taken (`slot` still
holds the sender), contradicting the claim that the one-shot has been taken
once the first text frame is processed. -/
theorem sender_handler_slot_not_taken :
    (senderHandlerRun (fun _ => none) [Frame.text []]).slot = true ∧
    (senderHandlerRun (fun _ => none) [Frame.text []]).buffer = none := by decide

/-- C10 (amended): after the first inbound text frame is processed the
accumulation buffer is `None` and every later inbound frame (text or
binary) leaves the handler state unchanged — the buffer is never
repopulated and the one-shot is resolved at most once; however the
file-tokens one-shot has been taken exactly when the accumulated prefix was
non-UTF-8 or parsed as SelectionReply JSON — after a valid-UTF-8
non-JSON prefix it remains untaken. -/
theorem sender_handler_first_text
    (parseReply : List Nat → Option (List (String × String)))
    (ds : List (List Nat)) (t : List Nat) (rest : List Frame) :
    (senderHandlerRun parseReply (binaries ds ++ [Frame.text t])).buffer
        = none ∧
    senderHandlerRun parseReply ((binaries ds ++ [Frame.text t]) ++ rest)
        = senderHandlerRun parseReply (binaries ds ++ [Frame.text t]) ∧
    ((senderHandlerRun parseReply (binaries ds ++ [Frame.text t])).slot = false
      ↔ (utf8Valid ds.flatten = false ∨ (parseReply ds.flatten).isSome = true)) := by
  have hrun : senderHandlerRun parseReply (binaries ds ++ [Frame.text t])
      = senderOnMessage parseReply ⟨some ds.flatten, true, none⟩ (Frame.text t) := by
    simp only [senderHandlerRun, List.foldl_append, senderHandlerInit]
    rw [senderHandler_binaries parseReply ds [] true none]
    simp
  have hbuf : (senderHandlerRun parseReply (binaries ds ++ [Frame.text t])).buffer
      = none := by
    rw [hrun]
    by_cases hu : utf8Valid ds.flatten
    · cases hp : parseReply ds.flatten <;> simp [senderOnMessage, hu, hp]
    · simp [senderOnMessage, Bool.of_not_eq_true hu]
  refine ⟨hbuf, ?_, ?_⟩
  · calc senderHandlerRun parseReply ((binaries ds ++ [Frame.text t]) ++ rest)
        = rest.foldl (senderOnMessage parseReply)
            (senderHandlerRun parseReply (binaries ds ++ [Frame.text t])) := by
          simp [senderHandlerRun, List.foldl_append]
      _ = senderHandlerRun parseReply (binaries ds ++ [Frame.text t]) :=
          senderHandler_buffer_none_fixed parseReply _ hbuf rest
  · rw [hrun]
    by_cases hu : utf8Valid ds.flatten
    · cases hp : parseReply ds.flatten <;> simp [senderOnMessage, hu, hp]
    · simp [senderOnMessage, Bool.of_not_eq_true hu]

theorem splitFull_short (buffer : List Nat) (h : buffer.length < CHUNK_SIZE) :
    splitFull buffer = ([], buffer) := by
  rw [splitFull]
  rw [dif_neg (by omega : ¬ CHUNK_SIZE ≤ buffer.length)]

theorem process_in_chunks_single_short (s : List Nat) (h : s.length < CHUNK_SIZE) :
    process_in_chunks [s] = if s.isEmpty then [] else [s] := by
  have h2 : splitFull s = ([], s) := splitFull_short s h
  simp [process_in_chunks, chunkerLoop, h2]

theorem sendFileLoop_eq_flatMap (serHeader : String → String → List Nat)
    (tokens : List (String × String)) :
    ∀ subs : List RTCFileModel,
      sendFileLoop serHeader tokens subs
        = (subs.flatMap (fun sub =>
            match tokens.lookup sub.file_id with
            | some tok => Frame.text (serHeader sub.file_id tok) ::
                (process_in_chunks sub.chunks).map Frame.binary
            | none => []),
           subs.filterMap (fun sub =>
            match tokens.lookup sub.file_id with
            | some _ => none
            | none => some (sub.file_id, "Failed to get file token"))) := by
  intro subs
  induction subs with
  | nil => rfl
  | cons sub rest ih =>
    simp only [sendFileLoop]
    cases h : tokens.lookup sub.file_id <;>
      simp [h, ih, List.flatMap_cons, List.filterMap_cons]

/-- C7 counterexample: a session whose receiver selected only file `"A"`
(tokens map `{A ↦ t}`) while the host submits file `"B"`.  The sender emits
NO FileHeader for the submitted file `B` — only the two empty-string
terminators appear on the wire (with an empty serialized manifest for
brevity), and a per-file error is emitted instead.  The claim's "for each
submitted file … one FileHeader text frame followed by that file's binary
chunks" fails. -/
theorem sender_skips_tokenless_file :
    (senderOnOpen [] (fun _ _ => [1]) (some [("A", "t")])
        [⟨"B", [[9]]⟩]).frames = [Frame.text [], Frame.text []] ∧
    (senderOnOpen [] (fun _ _ => [1]) (some [("A", "t")])
        [⟨"B", [[9]]⟩]).errors = [("B", "Failed to get file token")] := by
  have hm : process_in_chunks [([] : List Nat)] = [] := by
    simpa using process_in_chunks_single_short [] (by simp [CHUNK_SIZE])
  refine ⟨?_, ?_⟩ <;>
    simp [senderOnOpen, sendFileLoop, hm, List.lookup]

theorem isEmptyText_text_of_ne (d : List Nat) (h : d ≠ []) :
    Frame.isEmptyText (Frame.text d) = false := by
  cases d with
  | nil => exact absurd rfl h
  | cons a t => rfl

theorem filter_isEmptyText_map_binary (l : List (List Nat)) :
    (l.map Frame.binary).filter Frame.isEmptyText = [] := by
  induction l with
  | nil => rfl
  | cons a t ih => simp [List.filter_cons, Frame.isEmptyText, ih]

/-- C7 (amended): when the handshake resolves with a tokens map, the wire
order is: the OfferManifest binary chunks, one empty-string terminator,
then for each submitted file WHOSE ID HAS A TOKEN (in submission order) one
FileHeader text frame followed by that file's binary body chunks — a
submitted file without a token is skipped entirely (it contributes no
frames, only a per-file error) — and finally one empty-string terminator;
given non-empty header serializations, the empty-string text frames on the
wire are exactly the two terminators. -/
theorem sender_wire_order (serManifest : List Nat)
    (serHeader : String → String → List Nat)
    (tokens : List (String × String)) (subs : List RTCFileModel)
    (hhdr : ∀ id tok, serHeader id tok ≠ []) :
    (senderOnOpen serManifest serHeader (some tokens) subs).frames
      = (process_in_chunks [serManifest]).map Frame.binary ++ [Frame.text []]
        ++ subs.flatMap (fun sub =>
            match tokens.lookup sub.file_id with
            | some tok => Frame.text (serHeader sub.file_id tok) ::
                (process_in_chunks sub.chunks).map Frame.binary
            | none => []) ++ [Frame.text []] ∧
    (senderOnOpen serManifest serHeader (some tokens) subs).frames.filter
        Frame.isEmptyText = [Frame.text [], Frame.text []] := by
  have hloop := sendFileLoop_eq_flatMap serHeader tokens subs
  have hsub : ∀ l : List RTCFileModel, (l.flatMap (fun sub =>
      match tokens.lookup sub.file_id with
      | some tok => Frame.text (serHeader sub.file_id tok) ::
          (process_in_chunks sub.chunks).map Frame.binary
      | none => [])).filter Frame.isEmptyText = [] := by
    intro l
    induction l with
    | nil => rfl
    | cons sub rest ih =>
      rw [List.flatMap_cons, List.filter_append, ih, List.append_nil]
      cases h : tokens.lookup sub.file_id with
      | none => rfl
      | some tok =>
        rw [List.filter_cons]
        simp [isEmptyText_text_of_ne _ (hhdr sub.file_id tok),
          filter_isEmptyText_map_binary]
  constructor
  · simp [senderOnOpen, hloop, List.append_assoc]
  · simp [senderOnOpen, hloop, List.filter_append, hsub subs,
      filter_isEmptyText_map_binary, List.filter_cons, Frame.isEmptyText]

/-- Witness for C7's amended theorem: one selected file `A` of body `[9]`,
one-byte manifest and headers. -/
theorem sender_wire_order_witness :
    (senderOnOpen [7] (fun _ _ => [1]) (some [("A", "t")])
        [⟨"A", [[9]]⟩]).frames
      = (process_in_chunks [[7]]).map Frame.binary ++ [Frame.text []]
        ++ [Frame.text [1], Frame.binary [9]] ++ [Frame.text []] ∧
    (senderOnOpen [7] (fun _ _ => [1]) (some [("A", "t")])
        [⟨"A", [[9]]⟩]).frames.filter Frame.isEmptyText
      = [Frame.text [], Frame.text []] := by
  have h := sender_wire_order [7] (fun _ _ => [1]) [("A", "t")] [⟨"A", [[9]]⟩]
    (fun _ _ => by simp)
  refine ⟨?_, h.2⟩
  rw [h.1]
  have hb : process_in_chunks [[9]] = [[9]] := by
    simpa using process_in_chunks_single_short [9] (by simp [CHUNK_SIZE])
  simp [List.lookup, hb]

/-! ### Receiver side: the receive-files loop (webrtc.rs lines 429–508)

The sequential loop driven by `receive_rx`.  `parseHeader` stands for
`serde_json::from_slice::<RTCSendFileHeaderMessage>` (`none` = parse error,
which the source propagates with `?`).  `tokens` is
`initial_response.files`, `manifest` is `initial_msg.files`.  The per-file
bounded byte channel is represented by its `file_id`; `closed file_id`
tells whether the host has dropped that file's `binary_rx` (making
`binary_tx.send` fail). -/

/-- `RTCSendFileHeaderMessage { id, token }`. -/
structure HeaderMsg where
  id : String
  token : String
deriving DecidableEq

/-- Host-observable events of the receive loop: per-file errors on
`error_tx`, a new file published on `receiving_tx`, and a byte buffer
forwarded into the current file's sink. -/
inductive REvent
  | fileError (file_id : String) (error : String)
  | fileOpened (file_id : String)
  | forwarded (file_id : String) (data : List Nat)
deriving DecidableEq

/-- How the receive task's loop ends: `ok` for a clean exit (terminator,
or the message channel closing), `fail` for an `Err` propagated by `?`. -/
inductive LoopResult
  | ok
  | fail (msg : String)
deriving DecidableEq

/-- Is the loop result the clean exit? -/
def LoopResult.isOk : LoopResult → Bool
  | .ok => true
  | .fail _ => false

/-- `RTCFileState` (without the channel handle, which is represented by the
file id). -/
structure RTCFileStateM where
  file_id : String
  size : Nat
deriving DecidableEq

/-- The `while let Some(msg) = receive_rx.recv().await` loop of
`accept_offer`, from a given current `file_state`. -/
def receiveLoop (parseHeader : List Nat → Option HeaderMsg)
    (tokens : List (String × String)) (manifest : List FileDto)
    (closed : String → Bool) :
    Option RTCFileStateM → List Frame → List REvent × LoopResult
  | _, [] => ([], .ok)
  | state, Frame.text data :: rest =>
    if data.isEmpty then ([], .ok)
    else
      match parseHeader data with
      | none => ([], .fail "Failed to deserialize header")
      | some header =>
        match tokens.lookup header.id with
        | some entry =>
          if header.token ≠ entry then
            let p := receiveLoop parseHeader tokens manifest closed state rest
            (REvent.fileError header.id "Invalid token" :: p.1, p.2)
          else
            match manifest.find? (fun f => f.id == header.id) with
            | some file =>
              let p := receiveLoop parseHeader tokens manifest closed
                (some ⟨header.id, file.size⟩) rest
              (REvent.fileOpened header.id :: p.1, p.2)
            | none =>
              let p := receiveLoop parseHeader tokens manifest closed state rest
              (REvent.fileError header.id "Expected size to be available"
                :: p.1, p.2)
        | none =>
          let p := receiveLoop parseHeader tokens manifest closed state rest
          (REvent.fileError header.id "File not found" :: p.1, p.2)
  | state, Frame.binary data :: rest =>
    match state with
    | some st =>
      if closed st.file_id then ([], .fail "channel closed")
      else
        let p := receiveLoop parseHeader tokens manifest closed (some st) rest
        (REvent.forwarded st.file_id data :: p.1, p.2)
    | none =>
      let p := receiveLoop parseHeader tokens manifest closed none rest
      (REvent.fileError "unknown" "Received binary data without a header"
        :: p.1, p.2)

/-- FileDtos for the concrete scenarios. -/
def fileA : FileDto := ⟨"A", "a.txt", 5, "text/plain", none, none, none⟩

/-- Second FileDto for the concrete scenarios. -/
def fileB : FileDto := ⟨"B", "b.txt", 7, "text/plain", none, none, none⟩

/-- A concrete header decoder for the scenarios: payload `[1]` is the valid
header for `A`, payload `[2]` is a header for `B` with a wrong token. -/
def headerOf : List Nat → Option HeaderMsg :=
  fun bs =>
    if bs = [1] then some ⟨"A", "tA"⟩
    else if bs = [2] then some ⟨"B", "bad"⟩
    else none

/-- C4 counterexample: after the valid header for `A`, a FileHeader for `B`
with a wrong token only emits the per-file error and leaves `file_state`
untouched, so the following binary frame is forwarded to `A`'s sink — it is
NOT discarded until the next FileHeader as the claim states. -/
theorem receiver_forwards_after_bad_header :
    receiveLoop headerOf [("A", "tA"), ("B", "tB")] [fileA, fileB]
        (fun _ => false) none
        [Frame.text [1], Frame.text [2], Frame.binary [9]]
      = ([REvent.fileOpened "A", REvent.fileError "B" "Invalid token",
          REvent.forwarded "A" [9]], LoopResult.ok) := by decide

/-- C4 (amended): a FileHeader whose id is absent from the SelectionReply
(resp. whose token mismatches) makes the loop emit the per-file error
`"File not found"` (resp. `"Invalid token"`) and continue the session with
`file_state` UNCHANGED; a subsequent binary frame is therefore forwarded to
the previously established file's sink when one exists, and only when no
file is current is it dropped with the `"unknown"` per-file error. -/
theorem receiver_header_failure_continues
    (ph : List Nat → Option HeaderMsg) (tokens : List (String × String))
    (manifest : List FileDto) (closed : String → Bool)
    (state : Option RTCFileStateM) (data : List Nat) (rest : List Frame)
    (header : HeaderMsg) (hdata : data ≠ []) (hph : ph data = some header) :
    (tokens.lookup header.id = none →
      receiveLoop ph tokens manifest closed state (Frame.text data :: rest)
        = (REvent.fileError header.id "File not found" ::
            (receiveLoop ph tokens manifest closed state rest).1,
           (receiveLoop ph tokens manifest closed state rest).2)) ∧
    (∀ entry, tokens.lookup header.id = some entry → header.token ≠ entry →
      receiveLoop ph tokens manifest closed state (Frame.text data :: rest)
        = (REvent.fileError header.id "Invalid token" ::
            (receiveLoop ph tokens manifest closed state rest).1,
           (receiveLoop ph tokens manifest closed state rest).2)) ∧
    (∀ st, closed st.file_id = false →
      receiveLoop ph tokens manifest closed (some st) (Frame.binary data :: rest)
        = (REvent.forwarded st.file_id data ::
            (receiveLoop ph tokens manifest closed (some st) rest).1,
           (receiveLoop ph tokens manifest closed (some st) rest).2)) ∧
    (receiveLoop ph tokens manifest closed none (Frame.binary data :: rest)
      = (REvent.fileError "unknown" "Received binary data without a header" ::
          (receiveLoop ph tokens manifest closed none rest).1,
         (receiveLoop ph tokens manifest closed none rest).2)) := by
  have hde : data.isEmpty = false := by
    cases data with
    | nil => exact absurd rfl hdata
    | cons a t => rfl
  refine ⟨?_, ?_, ?_, ?_⟩
  · intro hlk
    simp [receiveLoop, hde, hph, hlk]
  · intro entry hlk hne
    simp [receiveLoop, hde, hph, hlk, hne]
  · intro st hcl
    simp [receiveLoop, hcl]
  · simp [receiveLoop]

/-- Witness for C4's amended theorem, at the concrete bad-token scenario:
the error is emitted, the loop continues, and the next binary frame goes to
`A`'s sink. -/
theorem receiver_header_failure_continues_witness :
    receiveLoop headerOf [("A", "tA"), ("B", "tB")] [fileA] (fun _ => false)
        (some ⟨"A", 5⟩) (Frame.text [2] :: [Frame.binary [9]])
      = (REvent.fileError "B" "Invalid token" ::
          (receiveLoop headerOf [("A", "tA"), ("B", "tB")] [fileA]
            (fun _ => false) (some ⟨"A", 5⟩) [Frame.binary [9]]).1,
         (receiveLoop headerOf [("A", "tA"), ("B", "tB")] [fileA]
            (fun _ => false) (some ⟨"A", 5⟩) [Frame.binary [9]]).2) :=
  (receiver_header_failure_continues headerOf [("A", "tA"), ("B", "tB")]
      [fileA] (fun _ => false) (some ⟨"A", 5⟩) [2] [Frame.binary [9]]
      ⟨"B", "bad"⟩ (by decide) (by decide)).2.1 "tB" (by decide) (by decide)

/-- C5 counterexample: the host has dropped file `A`'s byte receiver
(`closed = true` for every file).  After `A`'s valid FileHeader, the very
next binary frame makes `binary_tx.send(..).await?` fail and the `?`
terminates the whole receive task with an error: the failure is NOT
surfaced on the per-file error stream and the session does NOT continue,
contradicting the claim that a transport error while streaming one file
(including the host dropping the per-file byte receiver) is per-file. -/
theorem receiver_sink_drop_terminates :
    receiveLoop headerOf [("A", "tA")] [fileA] (fun _ => true) none
        [Frame.text [1], Frame.binary [3]]
      = ([REvent.fileOpened "A"], LoopResult.fail "channel closed") ∧
    (receiveLoop headerOf [("A", "tA")] [fileA] (fun _ => true) none
        [Frame.text [1], Frame.binary [3]]).2.isOk = false := by decide

/-- C5 (amended): unknown file id, token mismatch, missing manifest size,
and a binary frame without a current header are per-file: each emits the
error keyed by the file id (or `"unknown"`) and the loop's final result is
that of the remaining messages — the session continues and such an error
alone never fails the state machine.  However, a failure to forward a body
chunk into the current file's sink (the host dropped the per-file byte
receiver) terminates the receive task with an error and emits nothing on
the per-file error stream. -/
theorem receiver_per_file_errors
    (ph : List Nat → Option HeaderMsg) (tokens : List (String × String))
    (manifest : List FileDto) (closed : String → Bool)
    (state : Option RTCFileStateM) (data : List Nat) (rest : List Frame)
    (header : HeaderMsg) (hdata : data ≠ []) (hph : ph data = some header) :
    (∀ entry, tokens.lookup header.id = some entry → header.token = entry →
      manifest.find? (fun f => f.id == header.id) = none →
      receiveLoop ph tokens manifest closed state (Frame.text data :: rest)
        = (REvent.fileError header.id "Expected size to be available" ::
            (receiveLoop ph tokens manifest closed state rest).1,
           (receiveLoop ph tokens manifest closed state rest).2)) ∧
    (tokens.lookup header.id = none →
      (receiveLoop ph tokens manifest closed state
          (Frame.text data :: rest)).2
        = (receiveLoop ph tokens manifest closed state rest).2) ∧
    (∀ entry, tokens.lookup header.id = some entry → header.token ≠ entry →
      (receiveLoop ph tokens manifest closed state
          (Frame.text data :: rest)).2
        = (receiveLoop ph tokens manifest closed state rest).2) ∧
    ((receiveLoop ph tokens manifest closed none
        (Frame.binary data :: rest)).2
      = (receiveLoop ph tokens manifest closed none rest).2) ∧
    (∀ st, closed st.file_id = true →
      receiveLoop ph tokens manifest closed (some st)
          (Frame.binary data :: rest)
        = ([], LoopResult.fail "channel closed")) := by
  have hde : data.isEmpty = false := by
    cases data with
    | nil => exact absurd rfl hdata
    | cons a t => rfl
  refine ⟨?_, ?_, ?_, ?_, ?_⟩
  · intro entry hlk hte hfind
    simp [receiveLoop, hde, hph, hlk, hte, hfind]
  · intro hlk
    simp [receiveLoop, hde, hph, hlk]
  · intro entry hlk hne
    simp [receiveLoop, hde, hph, hlk, hne]
  · simp [receiveLoop]
  · intro st hcl
    simp [receiveLoop, hcl]

/-- Witness for C5's amended theorem: missing manifest size for `A` emits
the per-file error and continues; a closed sink terminates the task. -/
theorem receiver_per_file_errors_witness :
    receiveLoop headerOf [("A", "tA")] [] (fun _ => false) none
        (Frame.text [1] :: [])
      = (REvent.fileError "A" "Expected size to be available" ::
          (receiveLoop headerOf [("A", "tA")] [] (fun _ => false) none []).1,
         (receiveLoop headerOf [("A", "tA")] [] (fun _ => false) none []).2) ∧
    receiveLoop headerOf [("A", "tA")] [] (fun _ => true)
        (some ⟨"A", 5⟩) (Frame.binary [1] :: [])
      = ([], LoopResult.fail "channel closed") :=
  ⟨(receiver_per_file_errors headerOf [("A", "tA")] [] (fun _ => false)
      none [1] [] ⟨"A", "tA"⟩ (by decide) (by decide)).1
      "tA" (by decide) rfl rfl,
   (receiver_per_file_errors headerOf [("A", "tA")] [] (fun _ => true)
      (some ⟨"A", 5⟩) [1] [] ⟨"A", "tA"⟩ (by decide) (by decide)).2.2.2.2
      ⟨"A", 5⟩ rfl⟩

/-! ### Receiver side: the whole `accept_offer` receive task and its
terminal transition (webrtc.rs lines 334–554)

Parameters stand for external collaborators: `parseManifest` for
`serde_json::from_str::<RTCInitialMessage>`, `serReply` for
`serde_json::to_string::<RTCInitialResponse>`, `tokenGen` for
`Uuid::new_v4()`.  `handshakeBin` are the binary frames accumulated before
the first text frame; `selection` is the host's `selected_files_rx` result
(`none` = the one-shot's sender was dropped, i.e. decline).  The terminal
`tokio::select!` is modelled for executions in which the peer connection
never transitions to Failed: the receive task completes first and its arm
emits NO `Finished` status (only the `done_rx` arm does). -/

structure ReceiverOutcome where
  framesOut : List Frame
  statuses : List RTCStatusM
  events : List REvent
  taskOk : Bool
deriving DecidableEq

/-- `accept_offer`'s receive task followed by the select, for executions
without a peer-connection failure. -/
def acceptOfferSession (parseManifest : List Nat → Option (List FileDto))
    (serReply : List (String × String) → List Nat)
    (ph : List Nat → Option HeaderMsg) (tokenGen : String → String)
    (handshakeBin : List (List Nat)) (selection : Option (List String))
    (closed : String → Bool) (fileMsgs : List Frame) : ReceiverOutcome :=
  if utf8Valid handshakeBin.flatten then
    match parseManifest handshakeBin.flatten with
    | none => ⟨[], [.sdpExchanged, .connected], [], false⟩
    | some manifest =>
      match selection with
      | none => ⟨[], [.sdpExchanged, .connected], [], true⟩
      | some ids =>
        let tokens := ids.map fun id => (id, tokenGen id)
        let reply := (process_in_chunks [serReply tokens]).map Frame.binary
            ++ [Frame.text []]
        let p := receiveLoop ph tokens manifest closed none fileMsgs
        ⟨reply, [.sdpExchanged, .connected], p.1, p.2.isOk⟩
  else ⟨[], [.sdpExchanged, .connected], [], false⟩

/-- C6 counterexample: a declined session (the selection one-shot's sender
dropped without a selection).  The receive task returns `Ok(())` and the
select's receive-task arm runs — which emits no status at all — so the
receiver terminates WITHOUT emitting status `Finished`, contradicting the
claim that the receiver state machine terminates with status `Finished`. -/
theorem receiver_decline_no_finished :
    acceptOfferSession (fun _ => some [fileA]) (fun _ => []) headerOf
        (fun _ => "tok") [[123]] none (fun _ => false) []
      = ⟨[], [RTCStatusM.sdpExchanged, RTCStatusM.connected], [], true⟩ ∧
    RTCStatusM.finished ∉
      (acceptOfferSession (fun _ => some [fileA]) (fun _ => []) headerOf
        (fun _ => "tok") [[123]] none (fun _ => false) []).statuses := by decide

/-- C6 (amended): if the receiver declines, no SelectionReply (indeed no
frame at all) is emitted on the data channel and the receive task returns
cleanly, but the receiver emits NO `Finished` status (no status beyond
`SdpExchanged`/`Connected`); the sender's file-tokens one-shot is then
dropped unresolved, so the sender emits status
`Error("Failed to receive file tokens")` — not an empty file-tokens map —
sends no FileHeaders, sends the empty-string terminator, and does reach
`Finished` (after the error). -/
theorem decline_path (parseManifest : List Nat → Option (List FileDto))
    (serReply : List (String × String) → List Nat)
    (ph : List Nat → Option HeaderMsg) (tokenGen : String → String)
    (handshakeBin : List (List Nat)) (closed : String → Bool)
    (fileMsgs : List Frame) (manifest : List FileDto)
    (hu : utf8Valid handshakeBin.flatten = true)
    (hm : parseManifest handshakeBin.flatten = some manifest) :
    (acceptOfferSession parseManifest serReply ph tokenGen handshakeBin
        none closed fileMsgs).framesOut = [] ∧
    (acceptOfferSession parseManifest serReply ph tokenGen handshakeBin
        none closed fileMsgs).taskOk = true ∧
    RTCStatusM.finished ∉
      (acceptOfferSession parseManifest serReply ph tokenGen handshakeBin
        none closed fileMsgs).statuses ∧
    (∀ serManifest serHeader subs,
      (senderOnOpen serManifest serHeader none subs).frames
        = (process_in_chunks [serManifest]).map Frame.binary
            ++ [Frame.text [], Frame.text []] ∧
      (senderOnOpen serManifest serHeader none subs).statuses
        = [RTCStatusM.connected,
           RTCStatusM.error "Failed to receive file tokens",
           RTCStatusM.finished] ∧
      (senderOnOpen serManifest serHeader none subs).selectedPublished
        = none) := by
  refine ⟨?_, ?_, ?_, ?_⟩
  · simp [acceptOfferSession, hu, hm]
  · simp [acceptOfferSession, hu, hm]
  · simp [acceptOfferSession, hu, hm]
  · intro serManifest serHeader subs
    refine ⟨?_, rfl, rfl⟩
    simp [senderOnOpen]

/-- Witness for C6's amended theorem at a concrete declined session. -/
theorem decline_path_witness :
    (acceptOfferSession (fun _ => some [fileB]) (fun _ => []) headerOf
        (fun _ => "tok") [[32]] none (fun _ => false) []).framesOut = [] ∧
    RTCStatusM.finished ∉
      (acceptOfferSession (fun _ => some [fileB]) (fun _ => []) headerOf
        (fun _ => "tok") [[32]] none (fun _ => false) []).statuses ∧
    (senderOnOpen [] (fun _ _ => [1]) none []).statuses
      = [RTCStatusM.connected,
         RTCStatusM.error "Failed to receive file tokens",
         RTCStatusM.finished] :=
  ⟨(decline_path (fun _ => some [fileB]) (fun _ => []) headerOf
      (fun _ => "tok") [[32]] (fun _ => false) [] [fileB]
      (by decide) rfl).1,
   (decline_path (fun _ => some [fileB]) (fun _ => []) headerOf
      (fun _ => "tok") [[32]] (fun _ => false) [] [fileB]
      (by decide) rfl).2.2.1,
   ((decline_path (fun _ => some [fileB]) (fun _ => []) headerOf
      (fun _ => "tok") [[32]] (fun _ => false) [] [fileB]
      (by decide) rfl).2.2.2 [] (fun _ _ => [1]) []).2.1⟩

/-! ### Controllers (`src/app/rust/src/api/webrtc.rs`)

The take-once slots `Arc<Mutex<Option<…>>>` behind the one-shot consumers.
Each operation is a pure state transition on the slot: the outer `Option`
is the slot (`none` = already taken), the inner value abstracts the
underlying one-shot (`Option` = whether it resolves, `none` = its channel
closed / dropped). -/

/-- `RTCReceiveController::listen_files` (app webrtc.rs lines 213–223). -/
def listen_files (slot : Option (Option (List FileDto))) :
    Except String (List FileDto) × Option (Option (List FileDto)) :=
  match slot with
  | none => (.error "Files already received", none)
  | some none => (.error "Files channel closed", none)
  | some (some files) => (.ok files, none)

/-- `RTCSendController::listen_selected_files` (app webrtc.rs lines
150–160). -/
def listen_selected_files (slot : Option (Option (List String))) :
    Except String (List String) × Option (Option (List String)) :=
  match slot with
  | none => (.error "Selected files already received", none)
  | some none => (.error "Selected files channel closed", none)
  | some (some sel) => (.ok sel, none)

/-- `RTCReceiveController::send_selection` (app webrtc.rs lines 225–235);
the slot holds the selection one-shot's sender, the Bool tells whether its
receiver is still alive. -/
def send_selection (_selection : List String) (slot : Option Bool) :
    Except String Unit × Option Bool :=
  match slot with
  | none => (.error "Selected files already sent", none)
  | some alive =>
    (if alive then .ok () else .error "Selected files channel closed", none)

/-- `RTCReceiveController::decline` (app webrtc.rs lines 237–247); shares
the `selected_tx` slot with `send_selection`. -/
def decline (slot : Option Bool) : Except String Unit × Option Bool :=
  match slot with
  | none => (.error "Selected files already sent", none)
  | some alive =>
    (if alive then .ok () else .error "Selected files channel closed", none)

/-- `RTCFileReceiver::receive` (app webrtc.rs lines 280–292); the inner
value abstracts the taken `binary_rx` as the chunk list it will yield. -/
def RTCFileReceiver.receive (slot : Option (List (List Nat))) :
    Except String (List (List Nat)) × Option (List (List Nat)) :=
  match slot with
  | none => (.error "File receiver listened to", none)
  | some chunks => (.ok chunks, none)

/-- Does `pat` occur as a contiguous substring of `s`? -/
def hasSubstr (pat : List Char) : List Char → Bool
  | [] => pat.isEmpty
  | c :: t => pat.isPrefixOf (c :: t) || hasSubstr pat t

/-- C9 counterexample: consuming `RTCFileReceiver.receive` a second time
fails deterministically — but with the error `"File receiver listened to"`,
which is not an "already …" error (it does not even contain the word
`already`), contradicting the claim's error shape. -/
theorem receive_second_error_message :
    (RTCFileReceiver.receive
        (RTCFileReceiver.receive (some [[1]])).2).1
      = Except.error "File receiver listened to" ∧
    hasSubstr "already".toList "File receiver listened to".toList
      = false := ⟨rfl, by decide⟩

/-- C9 (amended): consuming any of the one-shots a second time fails
deterministically and leaves the (already taken) slot unchanged, so the
first consumption's result and the session are unaffected;
`listen_files`, `listen_selected_files` and `send_selection`/`decline`
(which share one slot) fail with "already …" messages, while
`FileReceiver.receive` fails with `"File receiver listened to"`, which
contains no "already". -/
theorem one_shot_double_consume :
    (∀ slot, (listen_files (listen_files slot).2)
        = (Except.error "Files already received", none)) ∧
    (∀ slot, (listen_selected_files (listen_selected_files slot).2)
        = (Except.error "Selected files already received", none)) ∧
    (∀ slot sel sel', (send_selection sel' (send_selection sel slot).2)
        = (Except.error "Selected files already sent", none)) ∧
    (∀ slot sel, (decline (send_selection sel slot).2)
        = (Except.error "Selected files already sent", none)) ∧
    (∀ slot sel, (send_selection sel (decline slot).2)
        = (Except.error "Selected files already sent", none)) ∧
    (∀ slot, (RTCFileReceiver.receive (RTCFileReceiver.receive slot).2)
        = (Except.error "File receiver listened to", none)) ∧
    hasSubstr "already".toList "Files already received".toList = true ∧
    hasSubstr "already".toList "Selected files already received".toList
      = true ∧
    hasSubstr "already".toList "Selected files already sent".toList = true ∧
    hasSubstr "already".toList "File receiver listened to".toList = false := by
  refine ⟨?_, ?_, ?_, ?_, ?_, ?_, by decide, by decide, by decide, by decide⟩
  · intro slot; cases slot with
    | none => rfl
    | some v => cases v <;> rfl
  · intro slot; cases slot with
    | none => rfl
    | some v => cases v <;> rfl
  · intro slot sel sel'; cases slot with
    | none => rfl
    | some v => cases v <;> rfl
  · intro slot sel; cases slot with
    | none => rfl
    | some v => cases v <;> rfl
  · intro slot sel; cases slot with
    | none => rfl
    | some v => cases v <;> rfl
  · intro slot; cases slot with
    | none => rfl
    | some v => rfl

end LocalSend
